import Mathlib

/-!
Verification of `analyzers/gpt_analyzer.py`.

Python strings are embedded as `List Char`.  External collaborators of the
script — `json.loads`, `json.dumps`, the chat model invoked through
`LLMChain.run`, and the sentence-embedding encoder — are not code of this
repository; they enter the embedding as explicit function parameters
(`jl`, `dumps`, `chat`, `enc`).  Everything else is translated directly
from the source file.
-/

/-- Whitespace test used by Python `str.strip` (ASCII whitespace). -/
def pyIsSpace (c : Char) : Bool :=
  c = ' ' || c = '\t' || c = '\n' || c = '\r' || c = '\x0b' || c = '\x0c'

/-- Python `str.lstrip()`. -/
def pyLstrip (l : List Char) : List Char := l.dropWhile pyIsSpace

/-- Python `str.rstrip()`. -/
def pyRstrip (l : List Char) : List Char := (l.reverse.dropWhile pyIsSpace).reverse

/-- Python `str.strip()`. -/
def pyStrip (l : List Char) : List Char := pyRstrip (pyLstrip l)

/-- Python `str.lower()` (ASCII letters; the source only compares against
the ASCII marker string "json"). -/
def pyLower (l : List Char) : List Char := l.map Char.toLower

/-- The code-fence delimiter "```" that `clean_gpt_output` splits on. -/
def backtickFence : List Char := ['`', '`', '`']

/-- Scanner for Python `str.split(sep)` with a non-empty separator: walk the
string left to right, emitting the accumulated segment whenever `sep` occurs.
The fuel argument makes the recursion structural; `pySplit` supplies
`l.length`, which is always sufficient since every step consumes at least one
character. -/
def pySplitGo (sep : List Char) : Nat → List Char → List Char → List (List Char)
  | 0, l, acc => [acc.reverse ++ l]
  | _ + 1, [], acc => [acc.reverse]
  | fuel + 1, c :: rest, acc =>
    if sep.isPrefixOf (c :: rest) then
      acc.reverse :: pySplitGo sep fuel (rest.drop (sep.length - 1)) []
    else
      pySplitGo sep fuel rest (c :: acc)

/-- Python `str.split(sep)` for a non-empty separator. -/
def pySplit (sep l : List Char) : List (List Char) := pySplitGo sep l.length l []

/-- Translation of `clean_gpt_output(output)`: strip the string; if it starts
with "```" and splitting on "```" yields at least three parts, keep the
stripped second part; finally, if the (lowercased) result starts with "json",
drop those four characters and strip again. -/
def clean_gpt_output (output : List Char) : List Char :=
  let o1 := pyStrip output
  let o2 :=
    if backtickFence.isPrefixOf o1 then
      let parts := pySplit backtickFence o1
      if 3 ≤ parts.length then pyStrip (parts.getD 1 []) else o1
    else o1
  if ("json".toList).isPrefixOf (pyLower o2) then pyStrip (o2.drop 4) else o2

/-- A model reply that is exactly one fenced code block tagged `json`,
with payload `p`: the literal shape "```json\n" ++ p ++ "\n```". -/
def fencedJsonBlock (p : List Char) : List Char :=
  ("```json\n".toList) ++ p ++ ("\n```".toList)

/-- JSON values as produced by `json.loads` (numbers as rationals). -/
inductive Json where
  | null : Json
  | bool : Bool → Json
  | num : ℚ → Json
  | str : List Char → Json
  | arr : List Json → Json
  | obj : List (List Char × Json) → Json

/-- Python truthiness test (`if not parsed_response:`) on a parsed JSON
value: `None`, `False`, `0`, `""`, `[]` and `{}` are falsy. -/
def pyFalsy : Json → Bool
  | Json.null => true
  | Json.bool b => !b
  | Json.num q => q == 0
  | Json.str s => s.isEmpty
  | Json.arr l => l.isEmpty
  | Json.obj l => l.isEmpty

/-- Key lookup in an embedded JSON object (Python `dict` access). -/
def pyLookup (key : List Char) : List (List Char × Json) → Option Json
  | [] => none
  | (k, v) :: rest => if k = key then some v else pyLookup key rest

/-- Python `str.find(ch)`: index of the first occurrence, `-1` if absent. -/
def pyFind (l : List Char) (c : Char) : Int :=
  match l.findIdx? (fun x => x == c) with
  | some i => (i : Int)
  | none => -1

/-- Python `str.rfind(ch)`: index of the last occurrence, `-1` if absent. -/
def pyRFind (l : List Char) (c : Char) : Int :=
  match l.reverse.findIdx? (fun x => x == c) with
  | some i => (l.length : Int) - 1 - (i : Int)
  | none => -1

/-- Python slice `l[a:b]` for the non-negative indices that reach it in
`parse_gpt_response`. -/
def pySlice (l : List Char) (a b : Int) : List Char :=
  (l.take b.toNat).drop a.toNat

/-- The bracket-extraction step of `parse_gpt_response`: compute
`start = cleaned.find("[")` and `end = cleaned.rfind("]") + 1`, fail (the
`ValueError` branch) when `start == -1 or end == -1`, and otherwise return
the slice `cleaned[start:end]`. -/
def bracketSlice (cleaned : List Char) : Option (List Char) :=
  let start := pyFind cleaned '['
  let stop := pyRFind cleaned ']' + 1
  if start = -1 ∨ stop = -1 then none
  else some (pySlice cleaned start stop)

/-- Error text "GPT 응답이 비어 있습니다." of the empty-response branch. -/
def msg_empty_response : List Char := "GPT 응답이 비어 있습니다.".toList

/-- Error text of the bracket-extraction `ValueError`, as caught and
formatted by the `except` clause of `parse_gpt_response`. -/
def msg_no_json_data : List Char :=
  "응답을 JSON으로 변환할 수 없습니다: GPT 응답에서 JSON 데이터를 찾을 수 없습니다.".toList

/-- Error text of the `json.JSONDecodeError` branch of `parse_gpt_response`
(the decoder detail interpolated by the f-string is not modelled). -/
def msg_decode_error : List Char := "응답을 JSON으로 변환할 수 없습니다: ".toList

/-- Error text "GPT 응답이 빈 JSON 배열입니다." of the falsy-value branch. -/
def msg_empty_array : List Char := "GPT 응답이 빈 JSON 배열입니다.".toList

/-- Return value of `parse_gpt_response`: the parsed JSON object, or the
error dictionary with keys "error" and "raw_response". -/
inductive ParseResult where
  | ok : Json → ParseResult
  | err : List Char → List Char → ParseResult

/-- Translation of `parse_gpt_response(response_text)`, with `json.loads`
passed in as `jl` (returning `none` where the decoder raises). -/
def parse_gpt_response (jl : List Char → Option Json) (response_text : List Char) :
    ParseResult :=
  let cleaned_text := clean_gpt_output response_text
  if cleaned_text.isEmpty then ParseResult.err msg_empty_response response_text
  else
    match bracketSlice cleaned_text with
    | none => ParseResult.err msg_no_json_data response_text
    | some json_str =>
      match jl json_str with
      | none => ParseResult.err msg_decode_error response_text
      | some v =>
        if pyFalsy v then ParseResult.err msg_empty_array response_text
        else ParseResult.ok v

/-- Return value of `generate_questions`: the parsed question list, or the
error dictionary with keys "error" and "raw_response". -/
inductive GenOut where
  | questions : List Json → GenOut
  | errObj : List Char → List Char → GenOut

/-- Error text of the `except` clause of `generate_questions` (decoder
details interpolated by the f-string are not modelled). -/
def msg_gen_fail : List Char := "질문 생성 응답을 JSON으로 변환할 수 없습니다: ".toList

/-- The prompt built by `generate_questions`: its `PromptTemplate` rendered
with `document` substituted. -/
def question_prompt (document : List Char) : List Char :=
  ("다음 문서 내용을 참고하여 10개의 질문을 생성하십시오.\n\n문서 내용:\n".toList) ++
  document ++
  ("\n\n질문은 간결하고 의미 있는 형태로 제공되어야 합니다.\n출력 형식 (JSON):\n[\n    \"질문1\",\n    \"질문2\",\n    \"질문3\",\n    \"질문4\",\n    \"질문5\",\n    \"질문6\",\n    \"질문7\",\n    \"질문8\",\n    \"질문9\",\n    \"질문10\"\n]".toList)

/-- Translation of `generate_questions(document_content)`.  The chat model
behind `LLMChain.run` is the parameter `chat` (prompt to reply) and
`json.loads` is `jl`.  The source performs no `OPENAI_API_KEY` check in this
function (`ChatOpenAI` is constructed without an explicit key); the
`api_key` parameter mirrors the ambient environment variable and is never
consulted.  The `str()` coercion of a non-string document is outside the
embedding (documents are strings here). -/
def generate_questions (jl : List Char → Option Json) (api_key : Option (List Char))
    (document_content : List Char) (chat : List Char → List Char) : GenOut :=
  let result := chat (question_prompt document_content)
  let cleaned_result := clean_gpt_output result
  match jl cleaned_result with
  | none => GenOut.errObj msg_gen_fail cleaned_result
  | some (Json.arr questions) =>
    if questions.length = 10 then GenOut.questions questions
    else GenOut.errObj msg_gen_fail cleaned_result
  | some _ => GenOut.errObj msg_gen_fail cleaned_result

/-- Exceptions raised by the script (`OpenAIError` on a missing credential,
`ValueError`/`TypeError`/`KeyError`/`AttributeError` on malformed inputs). -/
inductive PyErr where
  | openAIError : List Char → PyErr
  | valueError : List Char → PyErr
  | typeError : List Char → PyErr
  | keyError : List Char → PyErr
  | attributeError : List Char → PyErr

/-- Python truthiness of `os.getenv("OPENAI_API_KEY")`: falsy when the
variable is unset (`None`) or set to the empty string. -/
def pyFalsyOpt : Option (List Char) → Bool
  | none => true
  | some s => s.isEmpty

/-- Error text "OPENAI_API_KEY가 설정되어 있지 않습니다." of the key guards. -/
def msg_missing_key : List Char := "OPENAI_API_KEY가 설정되어 있지 않습니다.".toList

/-- Return value of `evaluate_qa_pairs` (past the key guard): the parsed
evaluation, or the error dictionary carrying the raw reply. -/
inductive EvalOut where
  | value : Json → EvalOut
  | errObj : List Char → List Char → EvalOut

/-- Error text of the `except` clause of `evaluate_qa_pairs`. -/
def msg_eval_fail : List Char := "평가 결과를 JSON으로 변환할 수 없습니다: ".toList

/-- The rubric prompt built by `evaluate_qa_pairs`: its `PromptTemplate`
rendered with the serialized `qa_pairs` substituted (the indentation of the
Python triple-quoted literal is kept only approximately; no claim depends on
the prompt text). -/
def eval_prompt (qa_dump : List Char) : List Char :=
  ("\n다음은 문서 기반으로 생성된 10개의 질문과 답변 쌍입니다.\n각 Q&A 쌍에 대해, 아래 평가 기준에 따라 0에서 100 사이의 점수를 부여해 주세요.\n\n평가 기준:\n1. 관련성: 질문과 답변이 문서 내용과 얼마나 관련이 있는지.\n2. 정확성: 답변이 실제 문서의 정보를 정확하게 반영하는지.\n3. 완전성: 답변이 질문에 대해 충분하고 완전한 정보를 제공하는지.\n4. 명료성: 답변이 명확하고 이해하기 쉬운지.\n\n위 네 가지 평가 기준의 개별 점수의 평균을 \"score\"로 계산하고, 모든 Q&A 쌍의 평균을 \"overall_score\"로 제시해 주세요.\n\n**반드시 오직 순수한 JSON 형식만 출력하십시오. 다른 설명, 마크다운, 또는 추가 텍스트가 포함되지 않아야 합니다.**\n\n출력 예시:\n\x7b\"evaluations\": [\n    \x7b\"질문\": \"첫 번째 질문\", \"답변\": \"첫 번째 답변\", \"관련성\": 90, \"정확성\": 85, \"완전성\": 80, \"명료성\": 88, \"score\": 86\x7d,\n    \x7b\"질문\": \"두 번째 질문\", \"답변\": \"두 번째 답변\", \"관련성\": 80, \"정확성\": 82, \"완전성\": 78, \"명료성\": 85, \"score\": 81.25\x7d\n], \"overall_score\": 83.5\x7d\n\n입력 데이터:\n".toList) ++
  qa_dump ++ ("\n".toList)

/-- Translation of `evaluate_qa_pairs(qa_pairs)`: guard on the key, run the
chain, then `json.loads(clean_gpt_output(result))`, recovering any decoding
exception into the error dictionary with the raw `result`.  `dumps` stands
for `json.dumps(..., ensure_ascii=False)`. -/
def evaluate_qa_pairs (jl : List Char → Option Json) (dumps : Json → List Char)
    (api_key : Option (List Char)) (qa_pairs : Json) (chat : List Char → List Char) :
    Except PyErr EvalOut :=
  if pyFalsyOpt api_key then Except.error (PyErr.openAIError msg_missing_key)
  else
    let result := chat (eval_prompt (dumps qa_pairs))
    Except.ok
      (match jl (clean_gpt_output result) with
       | some evaluation => EvalOut.value evaluation
       | none => EvalOut.errObj msg_eval_fail result)

/-- Translation of `truncate_document(document_content)`: the source returns
the whole content unchanged. -/
def truncate_document (document_content : List Char) : List Char := document_content

/-- The template text of `analyze_with_gpt` up to the `{file_type}` slot. -/
def analyze_prompt_head : List Char :=
  "주어진 문서 내용을 기반으로 질문에 대한 구체적이고 명확한 답변을 JSON 형식으로 생성하세요.\n\n문서 유형: ".toList

/-- The template text between the `{file_type}` and `{document_content}`
slots. -/
def analyze_prompt_doc_label : List Char := "\n문서 내용:\n".toList

/-- The template text between the `{document_content}` and `{questions}`
slots. -/
def analyze_prompt_q_label : List Char := "\n\n질문 목록:\n".toList

/-- The template text after the `{questions}` slot (`{{`/`}}` of the
f-string render as literal braces). -/
def analyze_prompt_tail : List Char :=
  "\n\n만약 문서에서 답을 찾을 수 없으면 \"답변\": \"정보 없음\"으로 출력하세요.\n\n응답 형식:\n[\n    \x7b\n        \"질문\": \"질문 내용\",\n        \"답변\": \"질문에 대한 구체적이고 명확한 답변\"\n    \x7d,\n    \x7b\n        \"질문\": \"질문 내용\",\n        \"답변\": \"질문에 대한 구체적이고 명확한 답변\"\n    \x7d\n]".toList

/-- The answer-generation prompt built by `analyze_with_gpt`: its
`PromptTemplate` rendered with `file_type`, `document_content` and the
serialized `questions` substituted. -/
def analyze_prompt (file_type document_content questions : List Char) : List Char :=
  analyze_prompt_head ++ file_type ++ analyze_prompt_doc_label ++ document_content ++
  analyze_prompt_q_label ++ questions ++ analyze_prompt_tail

/-- The dictionary key "질문" used throughout `analyze_with_gpt`. -/
def questionKey : List Char := "질문".toList

/-- Error text of the `ValueError` raised when a string `relevant_docs`
cannot be decoded. -/
def msg_relevant_docs : List Char :=
  "relevant_docs 문자열을 JSON으로 변환할 수 없습니다.".toList

/-- The comprehension `[{"질문": doc["질문"]} for doc in relevant_docs]`:
each element must be a dictionary containing the key, otherwise the
subscript raises (`TypeError` on a non-dict, `KeyError` on a missing key). -/
def extract_question_objs : List Json → Except PyErr (List Json)
  | [] => Except.ok []
  | d :: rest =>
    match d with
    | Json.obj fields =>
      match pyLookup questionKey fields with
      | some v => (extract_question_objs rest).map (Json.obj [(questionKey, v)] :: ·)
      | none => Except.error (PyErr.keyError questionKey)
    | _ => Except.error (PyErr.typeError ("doc subscript".toList))

/-- The expression `qa.get("질문", "")` followed by its use as the text to
embed: a dictionary yields the stored string (or "" when the key is absent);
a stored non-string value cannot be encoded (`TypeError`), and `.get` on a
non-dictionary raises `AttributeError`. -/
def qa_question_text : Json → Except PyErr (List Char)
  | Json.obj fields =>
    match pyLookup questionKey fields with
    | some (Json.str s) => Except.ok s
    | some _ => Except.error (PyErr.typeError ("encode non-string".toList))
    | none => Except.ok []
  | _ => Except.error (PyErr.attributeError ("get".toList))

open RealInnerProductSpace in
/-- Model of `sentence_transformers.util.pytorch_cos_sim` over the reals:
both vectors are normalized with `torch.nn.functional.normalize`, which
divides by `max(‖v‖, eps)` with `eps = 1e-12`, and the results are
dot-multiplied. -/
noncomputable def pytorch_cos_sim {n : ℕ} (u v : EuclideanSpace ℝ (Fin n)) : ℝ :=
  ⟪u, v⟫ / (max ‖u‖ (1e-12 : ℝ) * max ‖v‖ (1e-12 : ℝ))

/-- Translation of `compute_embedding_score(question, document_text)` with
the sentence-embedding model `embedding_model.encode` as the parameter
`enc`. -/
noncomputable def compute_embedding_score {n : ℕ}
    (enc : List Char → EuclideanSpace ℝ (Fin n)) (question document_text : List Char) : ℝ :=
  pytorch_cos_sim (enc question) (enc document_text)

/-- One iteration of the scoring loop of `analyze_with_gpt`: the mutation
`qa["embedding_score"] = score` is embedded as pairing the dictionary with
its score. -/
noncomputable def scoreOne {n : ℕ} (enc : List Char → EuclideanSpace ℝ (Fin n))
    (document_content : List Char) (qa : Json) : Except PyErr (Json × ℝ) :=
  match qa_question_text qa with
  | Except.ok question_text =>
    Except.ok (qa, compute_embedding_score enc question_text document_content)
  | Except.error e => Except.error e

/-- The scoring loop `for qa in qa_pairs: qa["embedding_score"] = ...` of
`analyze_with_gpt`: score the pairs left to right, propagating the first
raised exception. -/
noncomputable def attachScores {n : ℕ} (enc : List Char → EuclideanSpace ℝ (Fin n))
    (document_content : List Char) : List Json → Except PyErr (List (Json × ℝ))
  | [] => Except.ok []
  | qa :: rest =>
    match scoreOne enc document_content qa with
    | Except.error e => Except.error e
    | Except.ok p =>
      match attachScores enc document_content rest with
      | Except.error e => Except.error e
      | Except.ok ps => Except.ok (p :: ps)

/-- Return value of `analyze_with_gpt` (past the raising paths): the scored
pair list when the parse produced a list, the parsed value unchanged when it
was not a list, or the error dictionary passed through from
`parse_gpt_response`. -/
inductive AnalyzeOut where
  | pairs : List (Json × ℝ) → AnalyzeOut
  | value : Json → AnalyzeOut
  | errObj : List Char → List Char → AnalyzeOut

/-- Translation of `analyze_with_gpt(file_type, relevant_docs,
document_content)`: guard on the key, normalize `relevant_docs` (decoding it
when given as a string, raising `ValueError` on decode failure), rebuild the
question list, run the chain on the rendered prompt, parse the reply with
`parse_gpt_response`, and attach an embedding score to every element when
the parse produced a list.  `relevant_docs` arrives either as serialized
text (`Sum.inl`) or as an already-parsed list (`Sum.inr`). -/
noncomputable def analyze_with_gpt {n : ℕ} (jl : List Char → Option Json)
    (enc : List Char → EuclideanSpace ℝ (Fin n)) (dumps : Json → List Char)
    (api_key : Option (List Char)) (file_type : List Char)
    (relevant_docs : Sum (List Char) (List Json)) (document_content : List Char)
    (chat : List Char → List Char) : Except PyErr AnalyzeOut :=
  if pyFalsyOpt api_key then Except.error (PyErr.openAIError msg_missing_key)
  else
    let full_content := truncate_document document_content
    let docsE : Except PyErr (List Json) :=
      match relevant_docs with
      | Sum.inl s =>
        match jl s with
        | none => Except.error (PyErr.valueError msg_relevant_docs)
        | some (Json.arr l) => Except.ok l
        | some _ => Except.error (PyErr.typeError ("iteration".toList))
      | Sum.inr l => Except.ok l
    match docsE with
    | Except.error e => Except.error e
    | Except.ok docs =>
      match extract_question_objs docs with
      | Except.error e => Except.error e
      | Except.ok questions =>
        let result := chat (analyze_prompt file_type full_content (dumps (Json.arr questions)))
        match parse_gpt_response jl result with
        | ParseResult.err m r => Except.ok (AnalyzeOut.errObj m r)
        | ParseResult.ok (Json.arr qa_pairs) =>
          match attachScores enc document_content qa_pairs with
          | Except.error e => Except.error e
          | Except.ok ps => Except.ok (AnalyzeOut.pairs ps)
        | ParseResult.ok v => Except.ok (AnalyzeOut.value v)

/-- Stand-in for `json.loads` on runs where every decoded text is
malformed: it fails everywhere.  It agrees with the Python decoder on every
input it is applied to below ("foo", "x", "notjson" are not JSON). -/
def jlFail : List Char → Option Json := fun _ => none

/-- Stand-in for `json.loads` agreeing with the Python decoder at the input
"[]" (the empty array) and failing elsewhere. -/
def jlEmptyArr : List Char → Option Json :=
  fun s => if s = ("[]".toList) then some (Json.arr []) else none

/-- A model reply consisting of ten JSON-encoded question strings. -/
def replyTen : List Char :=
  "[\"q1\", \"q2\", \"q3\", \"q4\", \"q5\", \"q6\", \"q7\", \"q8\", \"q9\", \"q10\"]".toList

/-- The ten questions encoded by `replyTen`. -/
def tenQuestions : List Json :=
  [Json.str ("q1".toList), Json.str ("q2".toList), Json.str ("q3".toList),
   Json.str ("q4".toList), Json.str ("q5".toList), Json.str ("q6".toList),
   Json.str ("q7".toList), Json.str ("q8".toList), Json.str ("q9".toList),
   Json.str ("q10".toList)]

/-- Stand-in for `json.loads` agreeing with the Python decoder at `replyTen`
and failing elsewhere. -/
def jlTen : List Char → Option Json :=
  fun s => if s = replyTen then some (Json.arr tenQuestions) else none

/-- A model reply consisting of three JSON-encoded question strings. -/
def replyThree : List Char := "[\"q1\", \"q2\", \"q3\"]".toList

/-- Stand-in for `json.loads` agreeing with the Python decoder at
`replyThree` and failing elsewhere. -/
def jlThree : List Char → Option Json :=
  fun s => if s = replyThree then some (Json.arr [Json.str ("q1".toList),
    Json.str ("q2".toList), Json.str ("q3".toList)]) else none

/-- A model reply carrying a single question/answer pair. -/
def replyQA : List Char := "[\x7b\"질문\": \"q\", \"답변\": \"a\"\x7d]".toList

/-- The question/answer dictionary encoded by `replyQA`. -/
def qaPairOne : Json :=
  Json.obj [("질문".toList, Json.str ("q".toList)), ("답변".toList, Json.str ("a".toList))]

/-- Stand-in for `json.loads` agreeing with the Python decoder at `replyQA`
and failing elsewhere. -/
def jlQA : List Char → Option Json :=
  fun s => if s = replyQA then some (Json.arr [qaPairOne]) else none

/-- Stand-in for `json.dumps` used where no claim depends on the
serialization. -/
def dumpsNil : Json → List Char := fun _ => []

/-- The one-dimensional embedding vector (1). -/
noncomputable def vOne : EuclideanSpace ℝ (Fin 1) := fun _ => 1

/-- The one-dimensional embedding vector (-1). -/
noncomputable def vNegOne : EuclideanSpace ℝ (Fin 1) := fun _ => -1

/-- An embedding assignment sending the text "a" to (1) and every other
text to (-1); nothing in the source constrains the encoder's outputs. -/
noncomputable def encSign : List Char → EuclideanSpace ℝ (Fin 1) :=
  fun s => if s = ("a".toList) then vOne else vNegOne

/-- A constant embedding assignment. -/
noncomputable def encConst : List Char → EuclideanSpace ℝ (Fin 1) := fun _ => vOne

theorem pySplitGo_nil (sep : List Char) (fuel : Nat) (acc : List Char) :
    pySplitGo sep fuel [] acc = [acc.reverse] := by
  cases fuel <;> simp [pySplitGo]

theorem pySplitGo_fence_step (fuel : Nat) (x acc : List Char) :
    pySplitGo backtickFence (fuel + 1) (backtickFence ++ x) acc =
      acc.reverse :: pySplitGo backtickFence fuel x [] := by
  simp [backtickFence, pySplitGo, List.isPrefixOf]

theorem pySplitGo_scan (mid : List Char) : ∀ (fuel : Nat) (acc : List Char),
    mid.length + 3 ≤ fuel → (∀ c ∈ mid, c ≠ '`') →
    pySplitGo backtickFence fuel (mid ++ backtickFence) acc = [acc.reverse ++ mid, []] := by
  induction mid with
  | nil =>
    intro fuel acc hf _
    obtain ⟨f, rfl⟩ : ∃ f, fuel = f + 1 := ⟨fuel - 1, by omega⟩
    have h := pySplitGo_fence_step f [] acc
    simpa [pySplitGo_nil] using h
  | cons c mid ih =>
    intro fuel acc hf hc
    obtain ⟨f, rfl⟩ : ∃ f, fuel = f + 1 := ⟨fuel - 1, by omega⟩
    have hcb : ('`' == c) = false :=
      beq_eq_false_iff_ne.mpr (fun h => hc c (List.mem_cons_self c mid) h.symm)
    have hpre : backtickFence.isPrefixOf (c :: (mid ++ backtickFence)) = false := by
      simp [backtickFence, List.isPrefixOf, hcb]
    have step : pySplitGo backtickFence (f + 1) ((c :: mid) ++ backtickFence) acc =
        pySplitGo backtickFence f (mid ++ backtickFence) (c :: acc) := by
      simp [pySplitGo, hpre]
    rw [step, ih f (c :: acc) (by simp at hf ⊢; omega)
      (fun d hd => hc d (List.mem_cons_of_mem c hd))]
    simp

theorem pySplit_fenced (p : List Char) (hp : '`' ∉ p) :
    pySplit backtickFence (fencedJsonBlock p) =
      [[], "json\n".toList ++ p ++ ['\n'], []] := by
  have hshape : fencedJsonBlock p =
      backtickFence ++ (("json\n".toList ++ p ++ ['\n']) ++ backtickFence) := by
    rw [fencedJsonBlock, show "```json\n".toList = backtickFence ++ "json\n".toList from rfl,
      show "\n```".toList = ['\n'] ++ backtickFence from rfl]
    simp [List.append_assoc]
  have hmid : ∀ c ∈ ("json\n".toList ++ p ++ ['\n']), c ≠ '`' := by
    intro c hcmem
    rcases List.mem_append.mp hcmem with hcm | hcm
    · rcases List.mem_append.mp hcm with hcm2 | hcm2
      · fin_cases hcm2 <;> decide
      · exact fun h => hp (h ▸ hcm2)
    · simp at hcm; subst hcm; decide
  have hlen : (fencedJsonBlock p).length =
      (("json\n".toList ++ p ++ ['\n']).length + 5) + 1 := by
    rw [hshape]; simp [backtickFence]
  rw [pySplit, hlen, hshape, pySplitGo_fence_step,
    pySplitGo_scan _ _ _ (by simp) hmid]
  simp

theorem strip_fixed {p : List Char} (h : pyStrip p = p) :
    pyLstrip p = p ∧ p.reverse.dropWhile pyIsSpace = p.reverse := by
  have hsuf : pyLstrip p <:+ p := List.dropWhile_suffix _
  have hlen1 : (pyRstrip (pyLstrip p)).length ≤ (pyLstrip p).length := by
    simpa [pyRstrip] using
      (List.dropWhile_suffix (l := (pyLstrip p).reverse) pyIsSpace).length_le
  have heq1 : (pyLstrip p).length = p.length := by
    have h2 : p.length ≤ (pyLstrip p).length := by
      calc p.length = (pyStrip p).length := by rw [h]
        _ ≤ (pyLstrip p).length := by simpa [pyStrip] using hlen1
    exact le_antisymm hsuf.length_le h2
  have hl : pyLstrip p = p := hsuf.eq_of_length heq1
  have hrs : pyRstrip p = p := by rw [pyStrip, hl] at h; exact h
  refine ⟨hl, ?_⟩
  have h3 := congrArg List.reverse hrs
  simpa [pyRstrip] using h3

theorem pyStrip_sandwich {c d : Char} (hc : pyIsSpace c = false)
    (hd : pyIsSpace d = false) (m : List Char) :
    pyStrip (c :: (m ++ [d])) = c :: (m ++ [d]) := by
  have h1 : pyLstrip (c :: (m ++ [d])) = c :: (m ++ [d]) := by
    simp [pyLstrip, List.dropWhile_cons, hc]
  have h2 : (c :: (m ++ [d])).reverse = d :: (m.reverse ++ [c]) := by simp
  rw [pyStrip, h1, pyRstrip, h2, List.dropWhile_cons]
  simp [hd]

/-- C1: on a model output that is a single fenced code block with a leading
"json" marker, `clean_gpt_output` removes the outermost pair of "```"
delimiters and the "json" tag and returns the inner payload; in particular
it maps "```json\n[1,2]\n```" to "[1,2]". -/
theorem clean_gpt_output_fenced_block :
    (∀ p : List Char, '`' ∉ p → pyStrip p = p →
      clean_gpt_output (fencedJsonBlock p) = p) ∧
    clean_gpt_output ("```json\n[1,2]\n```".toList) = "[1,2]".toList := by
  constructor
  · intro p hp hstrip
    by_cases hpe : p = []
    · subst hpe; decide
    · obtain ⟨hld, hrd⟩ := strip_fixed hstrip
      have hfs : fencedJsonBlock p =
          '`' :: (("``json\n".toList ++ p ++ "\n``".toList) ++ ['`']) := by
        rw [fencedJsonBlock, show "```json\n".toList = '`' :: "``json\n".toList from rfl,
          show "\n```".toList = "\n``".toList ++ ['`'] from rfl]
        simp [List.append_assoc]
      have e1 : pyStrip (fencedJsonBlock p) = fencedJsonBlock p := by
        rw [hfs]
        exact pyStrip_sandwich (show pyIsSpace '`' = false from rfl)
          (show pyIsSpace '`' = false from rfl) _
      have hpre : backtickFence.isPrefixOf (fencedJsonBlock p) = true := by
        rw [fencedJsonBlock,
          show "```json\n".toList = backtickFence ++ "json\n".toList from rfl]
        exact List.isPrefixOf_iff_prefix.mpr
          ⟨"json\n".toList ++ p ++ "\n```".toList, by simp⟩
      have e2 := pySplit_fenced p hp
      have hml : pyLstrip (("json\n".toList ++ p) ++ ['\n']) =
          ("json\n".toList ++ p) ++ ['\n'] := by
        rw [show "json\n".toList = 'j' :: "son\n".toList from rfl]
        simp [pyLstrip, List.dropWhile_cons, show pyIsSpace 'j' = false from rfl]
      have hne : p.reverse.isEmpty = false := by
        cases p with
        | nil => exact absurd rfl hpe
        | cons a as => simp
      have hmr : pyRstrip (("json\n".toList ++ p) ++ ['\n']) = "json\n".toList ++ p := by
        have hrev : ((("json\n".toList ++ p) ++ ['\n'])).reverse =
            '\n' :: (p.reverse ++ ("json\n".toList).reverse) := by simp
        rw [pyRstrip, hrev, List.dropWhile_cons,
          show pyIsSpace '\n' = true from rfl, if_pos rfl, List.dropWhile_append, hrd, hne]
        simp
      have e3 : pyStrip (("json\n".toList ++ p) ++ ['\n']) = "json\n".toList ++ p := by
        rw [pyStrip, hml, hmr]
      have hjp : ("json".toList).isPrefixOf (pyLower ("json\n".toList ++ p)) = true := by
        rw [pyLower, List.map_append,
          show List.map Char.toLower ("json\n".toList) = "json\n".toList from rfl]
        exact List.isPrefixOf_iff_prefix.mpr ⟨'\n' :: List.map Char.toLower p, rfl⟩
      have hdrop : (("json\n".toList ++ p)).drop 4 = '\n' :: p := rfl
      have hfinal : pyStrip ('\n' :: p) = p := by
        rw [pyStrip, pyLstrip, List.dropWhile_cons,
          show pyIsSpace '\n' = true from rfl, if_pos rfl,
          show List.dropWhile pyIsSpace p = pyLstrip p from rfl, hld, pyRstrip, hrd]
        simp
      have hlen3 : (3 : ℕ) ≤
          ([[], ("json\n".toList ++ p) ++ ['\n'], []] : List (List Char)).length := by simp
      have hget : ([[], ("json\n".toList ++ p) ++ ['\n'], []] : List (List Char)).getD 1 [] =
          ("json\n".toList ++ p) ++ ['\n'] := rfl
      simp only [clean_gpt_output, e1, hpre, e2, eq_self_iff_true, if_true]
      rw [if_pos hlen3, hget, e3, hjp]
      simp only [eq_self_iff_true, if_true]
      rw [hdrop, hfinal]
  · decide

/-- Witness for C1 at the concrete payload "[7, 8]". -/
theorem clean_gpt_output_fenced_block_witness :
    '`' ∉ ("[7, 8]".toList) ∧ pyStrip ("[7, 8]".toList) = "[7, 8]".toList ∧
    clean_gpt_output (fencedJsonBlock ("[7, 8]".toList)) = "[7, 8]".toList :=
  ⟨by decide, by decide, clean_gpt_output_fenced_block.1 _ (by decide) (by decide)⟩

/-- C10: when the (stripped) input starts with "```" but splitting on "```"
yields fewer than three parts, `clean_gpt_output` performs no fence removal
and returns the whitespace-stripped input unchanged. -/
theorem clean_gpt_output_unclosed_fence (l : List Char)
    (h1 : backtickFence.isPrefixOf (pyStrip l) = true)
    (h2 : (pySplit backtickFence (pyStrip l)).length < 3) :
    clean_gpt_output l = pyStrip l := by
  have hnot3 : ¬ (3 : ℕ) ≤ (pySplit backtickFence (pyStrip l)).length := by omega
  obtain ⟨t, ht⟩ : ∃ t, pyStrip l = '`' :: t := by
    obtain ⟨t, ht⟩ := List.isPrefixOf_iff_prefix.mp h1
    exact ⟨'`' :: '`' :: t, by rw [← ht]; rfl⟩
  have hnj : ("json".toList).isPrefixOf (pyLower (pyStrip l)) = false := by
    rw [ht, pyLower, List.map_cons,
      show "json".toList = 'j' :: "son".toList from rfl]
    simp [List.isPrefixOf, show ('j' == Char.toLower '`') = false from rfl]
  simp only [clean_gpt_output, h1, eq_self_iff_true, if_true]
  rw [if_neg hnot3, hnj]
  simp

/-- Witness for C10 at the concrete input "```abc". -/
theorem clean_gpt_output_unclosed_fence_witness :
    backtickFence.isPrefixOf (pyStrip ("```abc".toList)) = true ∧
    (pySplit backtickFence (pyStrip ("```abc".toList))).length < 3 ∧
    clean_gpt_output ("```abc".toList) = pyStrip ("```abc".toList) :=
  ⟨by decide, by decide, clean_gpt_output_unclosed_fence _ (by decide) (by decide)⟩

/-- C2: `parse_gpt_response` always either returns the JSON value decoded
from the substring between the first "[" and last "]" of the cleaned text,
or returns (never raises) an error object carrying a message and the raw
input under "raw_response"; in particular whenever bracket extraction or
decoding fails it returns such an error object. -/
theorem parse_gpt_response_ok_or_error (jl : List Char → Option Json) (s : List Char) :
    ((∃ j v, bracketSlice (clean_gpt_output s) = some j ∧ jl j = some v ∧
        parse_gpt_response jl s = ParseResult.ok v) ∨
      (∃ m, parse_gpt_response jl s = ParseResult.err m s)) ∧
    (bracketSlice (clean_gpt_output s) = none →
      ∃ m, parse_gpt_response jl s = ParseResult.err m s) ∧
    (∀ j, bracketSlice (clean_gpt_output s) = some j → jl j = none →
      ∃ m, parse_gpt_response jl s = ParseResult.err m s) := by
  by_cases he : (clean_gpt_output s).isEmpty
  · have hp : parse_gpt_response jl s = ParseResult.err msg_empty_response s := by
      simp [parse_gpt_response, he]
    exact ⟨Or.inr ⟨_, hp⟩, fun _ => ⟨_, hp⟩, fun _ _ _ => ⟨_, hp⟩⟩
  · cases hbs : bracketSlice (clean_gpt_output s) with
    | none =>
      have hp : parse_gpt_response jl s = ParseResult.err msg_no_json_data s := by
        simp [parse_gpt_response, he, hbs]
      exact ⟨Or.inr ⟨_, hp⟩, fun _ => ⟨_, hp⟩, fun _ _ _ => ⟨_, hp⟩⟩
    | some j =>
      cases hjl : jl j with
      | none =>
        have hp : parse_gpt_response jl s = ParseResult.err msg_decode_error s := by
          simp [parse_gpt_response, he, hbs, hjl]
        exact ⟨Or.inr ⟨_, hp⟩, fun _ => ⟨_, hp⟩, fun _ _ _ => ⟨_, hp⟩⟩
      | some v =>
        by_cases hf : pyFalsy v
        · have hp : parse_gpt_response jl s = ParseResult.err msg_empty_array s := by
            simp [parse_gpt_response, he, hbs, hjl, hf]
          exact ⟨Or.inr ⟨_, hp⟩, fun _ => ⟨_, hp⟩, fun _ _ _ => ⟨_, hp⟩⟩
        · have hp : parse_gpt_response jl s = ParseResult.ok v := by
            simp [parse_gpt_response, he, hbs, hjl, hf]
          refine ⟨Or.inl ⟨j, v, rfl, hjl, hp⟩, fun hn => ?_, fun j' hj' hjl' => ?_⟩
          · cases hn
          · injection hj' with hj'
            subst hj'
            rw [hjl] at hjl'
            cases hjl'

/-- Witness for C2 at the inputs "x" (no bracket to extract) and "[x]"
(extraction succeeds, decoding fails). -/
theorem parse_gpt_response_ok_or_error_witness :
    (bracketSlice (clean_gpt_output ("x".toList)) = none ∧
      (∃ m, parse_gpt_response jlFail ("x".toList) = ParseResult.err m ("x".toList))) ∧
    (bracketSlice (clean_gpt_output ("[x]".toList)) = some ("[x]".toList) ∧
      jlFail ("[x]".toList) = none ∧
      (∃ m, parse_gpt_response jlFail ("[x]".toList) = ParseResult.err m ("[x]".toList))) :=
  ⟨⟨by decide, (parse_gpt_response_ok_or_error jlFail ("x".toList)).2.1 (by decide)⟩,
   ⟨by decide, rfl,
    (parse_gpt_response_ok_or_error jlFail ("[x]".toList)).2.2 ("[x]".toList)
      (by decide) rfl⟩⟩

/-- C9: when the cleaned text is empty, or the decoded value is falsy (for
example the empty array), `parse_gpt_response` does not return the parsed
value but an error object whose "raw_response" is the original input. -/
theorem parse_gpt_response_falsy_error (jl : List Char → Option Json) (s : List Char)
    (h : clean_gpt_output s = [] ∨
      ∃ j v, bracketSlice (clean_gpt_output s) = some j ∧ jl j = some v ∧
        pyFalsy v = true) :
    ∃ m, parse_gpt_response jl s = ParseResult.err m s := by
  rcases h with h | ⟨j, v, hbs, hjl, hf⟩
  · exact ⟨msg_empty_response, by simp [parse_gpt_response, h]⟩
  · by_cases he : (clean_gpt_output s).isEmpty
    · exact ⟨msg_empty_response, by simp [parse_gpt_response, he]⟩
    · exact ⟨msg_empty_array, by simp [parse_gpt_response, he, hbs, hjl, hf]⟩

/-- Witness for C9 at the input "[]", decoded to the empty array. -/
theorem parse_gpt_response_falsy_error_witness :
    (clean_gpt_output ("[]".toList) = [] ∨
      ∃ j v, bracketSlice (clean_gpt_output ("[]".toList)) = some j ∧
        jlEmptyArr j = some v ∧ pyFalsy v = true) ∧
    ∃ m, parse_gpt_response jlEmptyArr ("[]".toList) = ParseResult.err m ("[]".toList) :=
  ⟨Or.inr ⟨"[]".toList, Json.arr [], by decide, rfl, rfl⟩,
   parse_gpt_response_falsy_error jlEmptyArr ("[]".toList)
     (Or.inr ⟨"[]".toList, Json.arr [], by decide, rfl, rfl⟩)⟩

theorem gen_non_arr_aux (jl : List Char → Option Json) (api_key : Option (List Char))
    (doc : List Char) (chat : List Char → List Char) (v : Json)
    (hjl : jl (clean_gpt_output (chat (question_prompt doc))) = some v)
    (hna : ∀ qs, v ≠ Json.arr qs) :
    generate_questions jl api_key doc chat =
      GenOut.errObj msg_gen_fail (clean_gpt_output (chat (question_prompt doc))) := by
  cases v with
  | arr qs => exact absurd rfl (hna qs)
  | null => simp [generate_questions, hjl]
  | bool b => simp [generate_questions, hjl]
  | num q => simp [generate_questions, hjl]
  | str s => simp [generate_questions, hjl]
  | obj l => simp [generate_questions, hjl]

/-- C3: `generate_questions` returns the parsed question list exactly when
the cleaned model reply decodes to a JSON list of exactly ten items, and
returns a structured error object whenever decoding fails, the decoded
value is not a list, or its length is not ten. -/
theorem generate_questions_ten_check (jl : List Char → Option Json)
    (api_key : Option (List Char)) (doc : List Char) (chat : List Char → List Char) :
    (∀ qs, generate_questions jl api_key doc chat = GenOut.questions qs ↔
      (jl (clean_gpt_output (chat (question_prompt doc))) = some (Json.arr qs) ∧
        qs.length = 10)) ∧
    (jl (clean_gpt_output (chat (question_prompt doc))) = none →
      ∃ m r, generate_questions jl api_key doc chat = GenOut.errObj m r) ∧
    (∀ v, jl (clean_gpt_output (chat (question_prompt doc))) = some v →
      (∀ qs, v = Json.arr qs → qs.length ≠ 10) →
      ∃ m r, generate_questions jl api_key doc chat = GenOut.errObj m r) := by
  cases hjl : jl (clean_gpt_output (chat (question_prompt doc))) with
  | none =>
    have hg : generate_questions jl api_key doc chat =
        GenOut.errObj msg_gen_fail (clean_gpt_output (chat (question_prompt doc))) := by
      simp [generate_questions, hjl]
    refine ⟨fun qs => ⟨fun h => ?_, fun h => ?_⟩, fun _ => ⟨_, _, hg⟩, fun _ _ _ => ⟨_, _, hg⟩⟩
    · rw [hg] at h; cases h
    · cases h.1
  | some v =>
    by_cases hva : ∃ qs, v = Json.arr qs
    · obtain ⟨qs', rfl⟩ := hva
      by_cases hlen : qs'.length = 10
      · have hg : generate_questions jl api_key doc chat = GenOut.questions qs' := by
          simp [generate_questions, hjl, hlen]
        refine ⟨fun qs => ⟨fun h => ?_, fun h => ?_⟩, fun hn => ?_, fun v' hv' hbad => ?_⟩
        · rw [hg] at h; injection h with h; subst h; exact ⟨rfl, hlen⟩
        · obtain ⟨h1, _⟩ := h
          injection h1 with h1
          injection h1 with h1
          rw [hg, h1]
        · cases hn
        · injection hv' with hv'
          exact absurd hlen (hbad qs' hv'.symm)
      · have hg : generate_questions jl api_key doc chat =
            GenOut.errObj msg_gen_fail (clean_gpt_output (chat (question_prompt doc))) := by
          simp [generate_questions, hjl, hlen]
        refine ⟨fun qs => ⟨fun h => ?_, fun h => ?_⟩, fun hn => ?_, fun _ _ _ => ⟨_, _, hg⟩⟩
        · rw [hg] at h; cases h
        · obtain ⟨h1, h2⟩ := h
          injection h1 with h1
          injection h1 with h1
          exact absurd (h1 ▸ h2) hlen
        · cases hn
    · push_neg at hva
      have hg := gen_non_arr_aux jl api_key doc chat v hjl hva
      refine ⟨fun qs => ⟨fun h => ?_, fun h => ?_⟩, fun hn => ?_, fun _ _ _ => ⟨_, _, hg⟩⟩
      · rw [hg] at h; cases h
      · obtain ⟨h1, _⟩ := h
        injection h1 with h1
        exact absurd h1 (hva qs)
      · cases hn

/-- Witness for C3: a ten-item reply is returned as the question list, a
three-item reply yields an error object. -/
theorem generate_questions_ten_check_witness :
    generate_questions jlTen none ("d".toList) (fun _ => replyTen) =
      GenOut.questions tenQuestions ∧
    jlThree (clean_gpt_output ((fun _ => replyThree) (question_prompt ("d".toList)))) =
      some (Json.arr [Json.str ("q1".toList), Json.str ("q2".toList),
        Json.str ("q3".toList)]) ∧
    (∃ m r, generate_questions jlThree none ("d".toList) (fun _ => replyThree) =
      GenOut.errObj m r) :=
  ⟨((generate_questions_ten_check jlTen none ("d".toList)
      (fun _ => replyTen)).1 tenQuestions).mpr ⟨rfl, by decide⟩,
   rfl,
   (generate_questions_ten_check jlThree none ("d".toList) (fun _ => replyThree)).2.2
     (Json.arr [Json.str ("q1".toList), Json.str ("q2".toList), Json.str ("q3".toList)])
     rfl
     (by intro qs h; injection h with h; rw [← h]; decide)⟩

/-- C4 (amended): on malformed model output, `parse_gpt_response` and
`evaluate_qa_pairs` return error objects whose "raw_response" is the raw
model reply, while `generate_questions` stores the cleaned text (not the
raw reply) under "raw_response". -/
theorem raw_response_fields (jl : List Char → Option Json) (dumps : Json → List Char)
    (api_key : Option (List Char)) (s doc : List Char) (qa : Json)
    (chat : List Char → List Char) :
    (∀ m r, parse_gpt_response jl s = ParseResult.err m r → r = s) ∧
    (∀ m r, evaluate_qa_pairs jl dumps api_key qa chat = Except.ok (EvalOut.errObj m r) →
      r = chat (eval_prompt (dumps qa))) ∧
    (∀ m r, generate_questions jl api_key doc chat = GenOut.errObj m r →
      r = clean_gpt_output (chat (question_prompt doc))) := by
  refine ⟨fun m r h => ?_, fun m r h => ?_, fun m r h => ?_⟩
  · simp only [parse_gpt_response] at h
    split at h
    · injection h with h1 h2; exact h2.symm
    · split at h
      · injection h with h1 h2; exact h2.symm
      · split at h
        · injection h with h1 h2; exact h2.symm
        · split at h
          · injection h with h1 h2; exact h2.symm
          · cases h
  · simp only [evaluate_qa_pairs] at h
    split at h
    · cases h
    · injection h with h
      split at h
      · cases h
      · injection h with h1 h2; exact h2.symm
  · simp only [generate_questions] at h
    split at h
    · injection h with h1 h2; exact h2.symm
    · split at h
      · cases h
      · injection h with h1 h2; exact h2.symm
    · injection h with h1 h2; exact h2.symm

/-- C4 counterexample: for the fenced reply "```json\nfoo\n```", whose
cleaned text "foo" is not decodable JSON, `generate_questions` returns an
error object whose "raw_response" is the cleaned text "foo" — not the raw
(uncleaned) model reply. -/
theorem generate_questions_raw_response_counterexample :
    generate_questions jlFail none ("d".toList)
        (fun _ => ("```json\nfoo\n```".toList)) =
      GenOut.errObj msg_gen_fail ("foo".toList) ∧
    ("foo".toList) ≠ ("```json\nfoo\n```".toList) :=
  ⟨rfl, by decide⟩

/-- Witness for C4 (amended) on three concrete malformed replies. -/
theorem raw_response_fields_witness :
    (parse_gpt_response jlFail ("x".toList) =
        ParseResult.err msg_no_json_data ("x".toList) ∧
      ("x".toList : List Char) = ("x".toList : List Char)) ∧
    (evaluate_qa_pairs jlFail dumpsNil (some ("k".toList)) (Json.arr [])
        (fun _ => ("z".toList)) = Except.ok (EvalOut.errObj msg_eval_fail ("z".toList)) ∧
      ("z".toList : List Char) = ("z".toList : List Char)) ∧
    (generate_questions jlFail none ("d".toList)
        (fun _ => ("```json\nfoo\n```".toList)) =
        GenOut.errObj msg_gen_fail ("foo".toList) ∧
      ("foo".toList : List Char) = ("foo".toList : List Char)) :=
  ⟨⟨rfl, (raw_response_fields jlFail dumpsNil none ("x".toList) ("d".toList) (Json.arr [])
      (fun _ => ("z".toList))).1 msg_no_json_data ("x".toList) rfl⟩,
   ⟨rfl, (raw_response_fields jlFail dumpsNil (some ("k".toList)) ("x".toList) ("d".toList)
      (Json.arr []) (fun _ => ("z".toList))).2.1 msg_eval_fail ("z".toList) rfl⟩,
   ⟨rfl, (raw_response_fields jlFail dumpsNil none ("x".toList) ("d".toList) (Json.arr [])
      (fun _ => ("```json\nfoo\n```".toList))).2.2 msg_gen_fail ("foo".toList) rfl⟩⟩

/-- C5 (amended): with the key unset or empty, `analyze_with_gpt` and
`evaluate_qa_pairs` raise `OpenAIError` before any model interaction, while
`generate_questions` performs no key check of its own: its result does not
depend on the key at all. -/
theorem api_key_guards {n : ℕ} (jl : List Char → Option Json)
    (enc : List Char → EuclideanSpace ℝ (Fin n)) (dumps : Json → List Char)
    (api_key : Option (List Char)) (ft doc : List Char)
    (rd : Sum (List Char) (List Json)) (qa : Json) (chat : List Char → List Char)
    (api_key' : Option (List Char)) :
    (pyFalsyOpt api_key = true →
      analyze_with_gpt jl enc dumps api_key ft rd doc chat =
        Except.error (PyErr.openAIError msg_missing_key)) ∧
    (pyFalsyOpt api_key = true →
      evaluate_qa_pairs jl dumps api_key qa chat =
        Except.error (PyErr.openAIError msg_missing_key)) ∧
    generate_questions jl api_key doc chat = generate_questions jl api_key' doc chat := by
  refine ⟨fun h => ?_, fun h => ?_, rfl⟩
  · simp [analyze_with_gpt, h]
  · simp [evaluate_qa_pairs, h]

/-- C5 counterexample: with the key unset (`None`), `generate_questions`
does not raise any configuration error — it runs the model call and returns
the parsed question list. -/
theorem generate_questions_missing_key_counterexample :
    generate_questions jlTen none ("d".toList) (fun _ => replyTen) =
      GenOut.questions tenQuestions := rfl

/-- Witness for C5 (amended) with the key set to the empty string. -/
theorem api_key_guards_witness :
    pyFalsyOpt (some []) = true ∧
    analyze_with_gpt jlFail encConst dumpsNil (some []) ("t".toList)
        (Sum.inr []) ("d".toList) (fun _ => ("r".toList)) =
      Except.error (PyErr.openAIError msg_missing_key) ∧
    evaluate_qa_pairs jlFail dumpsNil (some []) (Json.arr [])
        (fun _ => ("r".toList)) =
      Except.error (PyErr.openAIError msg_missing_key) ∧
    generate_questions jlFail (some []) ("d".toList) (fun _ => ("r".toList)) =
      generate_questions jlFail none ("d".toList) (fun _ => ("r".toList)) :=
  ⟨rfl,
   (api_key_guards jlFail encConst dumpsNil (some []) ("t".toList) ("d".toList)
     (Sum.inr []) (Json.arr []) (fun _ => ("r".toList)) none).1 rfl,
   (api_key_guards jlFail encConst dumpsNil (some []) ("t".toList) ("d".toList)
     (Sum.inr []) (Json.arr []) (fun _ => ("r".toList)) none).2.1 rfl,
   (api_key_guards jlFail encConst dumpsNil (some []) ("t".toList) ("d".toList)
     (Sum.inr []) (Json.arr []) (fun _ => ("r".toList)) none).2.2⟩

theorem pytorch_cos_sim_abs_le_one {n : ℕ} (u v : EuclideanSpace ℝ (Fin n)) :
    |pytorch_cos_sim u v| ≤ 1 := by
  have hε : (0 : ℝ) < 1e-12 := by norm_num
  have ha : (0 : ℝ) < max ‖u‖ (1e-12 : ℝ) := lt_of_lt_of_le hε (le_max_right _ _)
  have hb : (0 : ℝ) < max ‖v‖ (1e-12 : ℝ) := lt_of_lt_of_le hε (le_max_right _ _)
  have hab : (0 : ℝ) < max ‖u‖ (1e-12 : ℝ) * max ‖v‖ (1e-12 : ℝ) := mul_pos ha hb
  have hinner : |(inner u v : ℝ)| ≤ ‖u‖ * ‖v‖ := abs_real_inner_le_norm u v
  have hprod : ‖u‖ * ‖v‖ ≤ max ‖u‖ (1e-12 : ℝ) * max ‖v‖ (1e-12 : ℝ) :=
    mul_le_mul (le_max_left _ _) (le_max_left _ _) (norm_nonneg v) (le_of_lt ha)
  rw [pytorch_cos_sim, abs_div, abs_of_pos hab]
  exact (div_le_one hab).mpr (le_trans hinner hprod)

/-- C7 (amended): `compute_embedding_score` is a cosine similarity of
normalized embeddings, so every score lies in the closed interval [-1, 1]
(not [0, 1]: nothing in the code keeps it non-negative). -/
theorem compute_embedding_score_bounds {n : ℕ}
    (enc : List Char → EuclideanSpace ℝ (Fin n)) (q d : List Char) :
    -1 ≤ compute_embedding_score enc q d ∧ compute_embedding_score enc q d ≤ 1 :=
  abs_le.mp (pytorch_cos_sim_abs_le_one (enc q) (enc d))

/-- C7 counterexample: under an embedding assignment that sends the
question and the document to opposite vectors, the score of
`compute_embedding_score` is negative, outside [0, 1]. -/
theorem compute_embedding_score_negative_counterexample :
    compute_embedding_score encSign ("a".toList) ("b".toList) < 0 := by
  have h1 : encSign ("a".toList) = vOne := by
    rw [show encSign ("a".toList) =
      (if ("a".toList : List Char) = ("a".toList) then vOne else vNegOne) from rfl]
    exact if_pos rfl
  have h2 : encSign ("b".toList) = vNegOne := by
    rw [show encSign ("b".toList) =
      (if ("b".toList : List Char) = ("a".toList) then vOne else vNegOne) from rfl]
    exact if_neg (by decide)
  have hi : (inner vOne vNegOne : ℝ) = -1 := by
    simp [vOne, vNegOne, PiLp.inner_apply, RCLike.inner_apply, starRingEnd_apply,
      star_trivial, Fin.sum_univ_one]
  have hnu : ‖vOne‖ = 1 := by
    simp [vOne, EuclideanSpace.norm_eq, Fin.sum_univ_one, Real.sqrt_one]
  have hnv : ‖vNegOne‖ = 1 := by
    simp [vNegOne, EuclideanSpace.norm_eq, Fin.sum_univ_one, Real.sqrt_one]
  rw [compute_embedding_score, h1, h2, pytorch_cos_sim, hi, hnu, hnv,
    show max (1 : ℝ) (1e-12) = 1 from max_eq_left (by norm_num)]
  norm_num

theorem attachScores_spec {n : ℕ} (enc : List Char → EuclideanSpace ℝ (Fin n))
    (doc : List Char) :
    ∀ (qas : List Json) (l : List (Json × ℝ)),
      attachScores enc doc qas = Except.ok l →
      ∀ p ∈ l, ∃ qt, qa_question_text p.1 = Except.ok qt ∧
        p.2 = compute_embedding_score enc qt doc := by
  intro qas
  induction qas with
  | nil =>
    intro l h p hp
    injection h with h
    subst h
    exact absurd hp (List.not_mem_nil p)
  | cons a as ih =>
    intro l h p hp
    cases hsa : scoreOne enc doc a with
    | error e =>
      rw [show attachScores enc doc (a :: as) = Except.error e from by
        simp [attachScores, hsa]] at h
      cases h
    | ok b =>
      cases hm : attachScores enc doc as with
      | error e =>
        rw [show attachScores enc doc (a :: as) = Except.error e from by
          simp [attachScores, hsa, hm]] at h
        cases h
      | ok bs =>
        rw [show attachScores enc doc (a :: as) = Except.ok (b :: bs) from by
          simp [attachScores, hsa, hm]] at h
        injection h with h
        subst h
        rcases List.mem_cons.mp hp with rfl | hp2
        · simp only [scoreOne] at hsa
          cases hq : qa_question_text a with
          | error e => rw [hq] at hsa; cases hsa
          | ok qt =>
            rw [hq] at hsa
            injection hsa with hsa
            subst hsa
            exact ⟨qt, hq, rfl⟩
        · exact ih bs hm p hp2

/-- C6: when `analyze_with_gpt` returns a QA-pair list, every element
carries as its `embedding_score` the cosine similarity between the
embedding of that pair's question text and the embedding of the full
document text; and when `relevant_docs` is a string that fails to decode,
`analyze_with_gpt` raises `ValueError`. -/
theorem analyze_with_gpt_scores_and_value_error {n : ℕ} (jl : List Char → Option Json)
    (enc : List Char → EuclideanSpace ℝ (Fin n)) (dumps : Json → List Char)
    (k ft doc : List Char) (rd : Sum (List Char) (List Json))
    (chat : List Char → List Char) :
    (∀ l, analyze_with_gpt jl enc dumps (some k) ft rd doc chat =
        Except.ok (AnalyzeOut.pairs l) →
      ∀ p ∈ l, ∃ qt, qa_question_text p.1 = Except.ok qt ∧
        p.2 = compute_embedding_score enc qt doc) ∧
    (∀ s, k ≠ [] → rd = Sum.inl s → jl s = none →
      analyze_with_gpt jl enc dumps (some k) ft rd doc chat =
        Except.error (PyErr.valueError msg_relevant_docs)) := by
  constructor
  · intro l h p hp
    have hex : ∃ qas, attachScores enc doc qas = Except.ok l := by
      simp only [analyze_with_gpt] at h
      split at h
      · cases h
      · split at h
        · cases h
        · split at h
          · cases h
          · split at h
            · cases h
            · rename_i qas heq
              split at h
              · cases h
              · rename_i ps heq2
                cases h
                exact ⟨qas, heq2⟩
            · cases h
    obtain ⟨qas, hqas⟩ := hex
    exact attachScores_spec enc doc qas l hqas p hp
  · intro s hk hrd hjl
    subst hrd
    have hkey : pyFalsyOpt (some k) = false := by
      cases k with
      | nil => exact absurd rfl hk
      | cons a t => rfl
    simp [analyze_with_gpt, hkey, hjl]

/-- Witness for C6: a one-pair reply is scored, and an undecodable string
`relevant_docs` raises `ValueError`. -/
theorem analyze_with_gpt_scores_and_value_error_witness :
    (analyze_with_gpt jlQA encConst dumpsNil (some ("k".toList)) ("PDF".toList)
        (Sum.inr [qaPairOne]) ("doc".toList) (fun _ => replyQA) =
      Except.ok (AnalyzeOut.pairs [(qaPairOne,
        compute_embedding_score encConst ("q".toList) ("doc".toList))])) ∧
    (∃ qt, qa_question_text qaPairOne = Except.ok qt ∧
      compute_embedding_score encConst ("q".toList) ("doc".toList) =
        compute_embedding_score encConst qt ("doc".toList)) ∧
    ("k".toList ≠ ([] : List Char)) ∧ jlQA ("nope".toList) = none ∧
    analyze_with_gpt jlQA encConst dumpsNil (some ("k".toList)) ("PDF".toList)
        (Sum.inl ("nope".toList)) ("doc".toList) (fun _ => replyQA) =
      Except.error (PyErr.valueError msg_relevant_docs) :=
  ⟨rfl,
   (analyze_with_gpt_scores_and_value_error jlQA encConst dumpsNil ("k".toList)
      ("PDF".toList) ("doc".toList) (Sum.inr [qaPairOne]) (fun _ => replyQA)).1
     [(qaPairOne, compute_embedding_score encConst ("q".toList) ("doc".toList))] rfl
     (qaPairOne, compute_embedding_score encConst ("q".toList) ("doc".toList))
     (by simp),
   by decide, rfl,
   (analyze_with_gpt_scores_and_value_error jlQA encConst dumpsNil ("k".toList)
      ("PDF".toList) ("doc".toList) (Sum.inl ("nope".toList)) (fun _ => replyQA)).2
     ("nope".toList) (by decide) rfl rfl⟩

/-- C8: `truncate_document` returns its argument unchanged, so the document
text spliced into the answer-generation prompt is the full, unmodified
document content (it occurs verbatim inside the rendered prompt). -/
theorem truncate_document_identity_prompt :
    (∀ d : List Char, truncate_document d = d) ∧
    (∀ ft d q : List Char, d <:+: analyze_prompt ft (truncate_document d) q) := by
  refine ⟨fun d => rfl, fun ft d q => ?_⟩
  refine ⟨analyze_prompt_head ++ ft ++ analyze_prompt_doc_label,
    analyze_prompt_q_label ++ q ++ analyze_prompt_tail, ?_⟩
  simp [analyze_prompt, truncate_document, List.append_assoc]
